import Mathlib

set_option maxRecDepth 8000

/-!
Shallow embedding of src/build.py, the static site generator of
unsloppable-analysis.  Strings are modelled as Lean strings; the line level
parsing works on lists of characters (a Lean String wraps a list of
characters in this toolchain, so nothing is lost).  Python dictionaries
produced by parse_markdown always hold every key, so the Record structure
below has one field per key of the data dictionary initialised at
build.py:55-69; comments at each use site record where a dict .get default
of the source is inert because the key is always present.
-/

/-- Characters treated as whitespace by Python str.strip with no argument
(ASCII subset; the regex class for whitespace agrees on these for the
inputs handled here). -/
def pyIsSpace (c : Char) : Bool :=
  c = ' ' || c = '\t' || c = '\n' || c = '\r' || c = '\x0b' || c = '\x0c'

/-- Python line.strip() on a list of characters: drop whitespace from both
ends. -/
def pyStripL (l : List Char) : List Char :=
  ((l.dropWhile pyIsSpace).reverse.dropWhile pyIsSpace).reverse

/-- Python key.rstrip applied to the asterisk character (build.py:104). -/
def rstripStar (l : List Char) : List Char :=
  (l.reverse.dropWhile (fun c => c = '*')).reverse

/-- Python key.strip applied to the three characters hyphen, asterisk,
space (build.py:104). -/
def stripDashStarSpace (l : List Char) : List Char :=
  let p := fun (c : Char) => c = '-' || c = '*' || c = ' '
  ((l.dropWhile p).reverse.dropWhile p).reverse

/-- Python l.lstrip applied to hyphen and space, used in the flush branch
of the first scan (build.py:93). -/
def lstripDashSpace (l : List Char) : List Char :=
  l.dropWhile (fun c => c = '-' || c = ' ')

/-- Python content.split at one separator character, keeping empty pieces,
as in build.py:71. -/
def splitOnChar (c : Char) (l : List Char) : List (List Char) :=
  l.foldr
    (fun x acc =>
      match acc with
      | [] => [[x]]
      | a :: as => if x = c then [] :: a :: as else (x :: a) :: as)
    [[]]

/-- Lines of a document, as Python content.split at the newline character
(build.py:71). -/
def pyLines (content : String) : List (List Char) :=
  splitOnChar '\n' content.data

/-- Python substring membership test, sub in s. -/
def listIn (sub : List Char) : List Char → Bool
  | [] => sub.isEmpty
  | c :: t => sub.isPrefixOf (c :: t) || listIn sub t

/-- First component of Python s.split(sep) for a nonempty separator: the
characters before the first occurrence of sep, or all of s when sep does
not occur (build.py:242 keeps only component zero). -/
def beforeFirst (sep : List Char) : List Char → List Char
  | [] => []
  | c :: t => if sep.isPrefixOf (c :: t) then [] else c :: beforeFirst sep t

/-- Result of re.search for one or more decimal digits (build.py:108 and
112): the first maximal run of digits of the value, when the value has a
digit at all. -/
def firstRun (l : List Char) : Option (List Char) :=
  match l.dropWhile (fun c => !c.isDigit) with
  | [] => none
  | c :: t => some ((c :: t).takeWhile Char.isDigit)

/-- Numeric value of a nonempty all-digit character list. -/
def digitsVal (ds : List Char) : Option Int :=
  if ds ≠ [] ∧ ds.all Char.isDigit then
    some (ds.foldl (fun (a : Int) c => a * 10 + Int.ofNat (c.toNat - 48)) 0)
  else none

/-- Python int applied to a string, restricted to the shapes that reach it
in build.py (optional sign and decimal digits with surrounding whitespace;
digit-group underscores never occur in the extracted scores).  The none
result models the ValueError branch of build.py:36. -/
def pyInt (s : String) : Option Int :=
  match pyStripL s.data with
  | '+' :: ds => digitsVal ds
  | '-' :: ds => (digitsVal ds).map (fun n => -n)
  | ds => digitsVal ds

/-- Color class for a vulnerability score, build.py:26-37.  The argument is
always the string stored in the record (the integer literal default of the
call sites at build.py:239-240 is inert because parse_markdown always
stores a string). -/
def get_score_class (score : String) : String :=
  match pyInt score with
  | some n =>
    if n ≤ 3 then "text-green-600"
    else if n ≤ 6 then "text-yellow-600"
    else "text-red-600"
  | none => "text-gray-600"

/-- Color class for the macro risk string, build.py:40-48: lower-case the
whole value, then test substring containment.  Char.toLower agrees with
Python str.lower on the ASCII inputs handled here. -/
def get_macro_risk_class (risk : String) : String :=
  let rl := risk.data.map Char.toLower
  if listIn "low".data rl then "text-green-600"
  else if listIn "medium".data rl then "text-yellow-600"
  else "text-red-600"

/-- One parsed document: the data dictionary of build.py:55-69.  Every key
is always present, initialised by initRecord below. -/
structure Record where
  ticker : String
  company_name : String
  ai_score : String
  robotics_score : String
  ai_beneficiary : String
  robotics_beneficiary : String
  value_chain : String
  final_classification : String
  macro_risk : String
  moat_sources : String
  key_insights : List String
  q1 : String
  q2 : String
  q3 : String
  q4 : String
  q5 : String
  q6 : String
  q7 : String
  q8 : String
  deriving DecidableEq

/-- Initial data dictionary of build.py:55-69. -/
def initRecord : Record where
  ticker := ""
  company_name := ""
  ai_score := ""
  robotics_score := ""
  ai_beneficiary := ""
  robotics_beneficiary := ""
  value_chain := ""
  final_classification := "TEMP_MARKER"
  macro_risk := ""
  moat_sources := ""
  key_insights := []
  q1 := ""
  q2 := ""
  q3 := ""
  q4 := ""
  q5 := ""
  q6 := ""
  q7 := ""
  q8 := ""

/-- Title match of build.py:75: re.match of the pattern hash, whitespace,
a group of non-parenthesis characters, whitespace, an opening parenthesis,
a group of non-closing-parenthesis characters, a closing parenthesis,
applied to the stripped line.  Derivation of the conditions: the match is
anchored at the start, so the stripped line must begin with the hash
character; the characters between the hash and the opening parenthesis
(list A below) can contain no opening parenthesis, so the parenthesis the
pattern consumes is the first one of the line; A must factor as nonempty
whitespace, then a nonempty parenthesis-free group, then nonempty
whitespace, which holds exactly when A has length at least three and
whitespace at both ends (the middle group may itself contain whitespace);
greedy matching then yields group one equal to A without its maximal
whitespace prefix and without one trailing whitespace character, whose
strip (build.py:77) equals the strip of A; the second group is the
nonempty run of non-closing-parenthesis characters after the parenthesis,
terminated by a closing parenthesis, and re.match leaves any trailing
characters unconstrained.  Returns the stripped groups of build.py:77-78,
company name then ticker. -/
def extractTitle (line : List Char) : Option (String × String) :=
  match pyStripL line with
  | '#' :: rest =>
    let A := rest.takeWhile (fun c => c ≠ '(')
    let B := rest.drop (A.length + 1)
    let C := B.takeWhile (fun c => c ≠ ')')
    if A.length < rest.length ∧ 3 ≤ A.length ∧
        pyIsSpace (A.headD '(') ∧ pyIsSpace (A.getLastD '(') ∧
        C ≠ [] ∧ C.length < B.length then
      some (⟨pyStripL A⟩, ⟨pyStripL C⟩)
    else none
  | _ => none

/-- Title loop of build.py:74-79: the first line whose strip matches the
title pattern sets company name and ticker; with no match both keep their
initial empty value. -/
def applyTitle (d : Record) (lines : List (List Char)) : Record :=
  match lines.findSome? extractTitle with
  | some (name, tick) => { d with company_name := name, ticker := tick }
  | none => d

/-- Key of a colon line, build.py:103-104: the characters before the first
colon, stripped, right-stripped of asterisks, then stripped of hyphen,
asterisk and space characters; none when the line has no colon. -/
def lineKey (line : List Char) : Option (List Char) :=
  if line.contains ':' then
    some (stripDashStarSpace (rstripStar (pyStripL (line.takeWhile (fun c => c ≠ ':')))))
  else none

/-- Value of a colon line, build.py:103-105: the characters after the first
colon, stripped. -/
def lineVal (line : List Char) : List Char :=
  pyStripL (line.drop ((line.takeWhile (fun c => c ≠ ':')).length + 1))

/-- Key-value dispatch of build.py:102-124 for one already-stripped line
containing a colon.  Keys outside the recognized set leave the record
unchanged. -/
def kvStep (d : Record) (line : List Char) : Record :=
  match lineKey line with
  | none => d
  | some key =>
    let value := lineVal line
    if key = "AI Software Vulnerability Score".data then
      match firstRun value with
      | some r => { d with ai_score := ⟨r⟩ }
      | none => d
    else if key = "Robotics Vulnerability Score".data then
      match firstRun value with
      | some r => { d with robotics_score := ⟨r⟩ }
      | none => d
    else if key = "AI Beneficiary".data then { d with ai_beneficiary := ⟨value⟩ }
    else if key = "Robotics Beneficiary".data then { d with robotics_beneficiary := ⟨value⟩ }
    else if key = "Value Chain Position".data then { d with value_chain := ⟨value⟩ }
    else if key = "Final Classification".data then { d with final_classification := ⟨value⟩ }
    else if key = "Macro Contagion Risk".data then { d with macro_risk := ⟨value⟩ }
    else d

/-- Write a named string field of the record, modelling a Python dict item
assignment with a dynamic string key (build.py:96).  A key naming no
string field of the data dictionary would insert a fresh dict entry in
Python; that case is unreachable because the section variable is never
assigned a key, which the development proves, so it is modelled as the
identity. -/
def setStrField (d : Record) (k : String) (v : String) : Record :=
  if k = "ticker" then { d with ticker := v }
  else if k = "company_name" then { d with company_name := v }
  else if k = "ai_score" then { d with ai_score := v }
  else if k = "robotics_score" then { d with robotics_score := v }
  else if k = "ai_beneficiary" then { d with ai_beneficiary := v }
  else if k = "robotics_beneficiary" then { d with robotics_beneficiary := v }
  else if k = "value_chain" then { d with value_chain := v }
  else if k = "final_classification" then { d with final_classification := v }
  else if k = "macro_risk" then { d with macro_risk := v }
  else if k = "moat_sources" then { d with moat_sources := v }
  else if k = "q1" then { d with q1 := v }
  else if k = "q2" then { d with q2 := v }
  else if k = "q3" then { d with q3 := v }
  else if k = "q4" then { d with q4 := v }
  else if k = "q5" then { d with q5 := v }
  else if k = "q6" then { d with q6 := v }
  else if k = "q7" then { d with q7 := v }
  else if k = "q8" then { d with q8 := v }
  else d

/-- State of the first scan of build.py:82-124: the active section key, the
accumulated value lines, and the record being built. -/
structure ScanState where
  sec : Option String
  val : List (List Char)
  data : Record
  deriving DecidableEq

/-- Flush of build.py:91-96: with a truthy section key and nonempty
accumulated value, commit either the bullet list (for the reserved
insights key) or the space-joined stripped text under the active key. -/
def flushData (sec : Option String) (val : List (List Char)) (d : Record) : Record :=
  match sec with
  | none => d
  | some k =>
    if k ≠ "" ∧ val ≠ [] then
      if k = "key_insights" then
        { d with key_insights :=
            (val.filter (fun l => pyStripL l ≠ [])).map (fun l => (⟨lstripDashSpace l⟩ : String)) }
      else setStrField d k ⟨pyStripL (List.intercalate [' '] val)⟩
    else d

/-- One iteration of the first scan loop, build.py:85-124: strip the line;
a blank or hash-initial line flushes and clears the section state; a colon
line feeds the key-value dispatch; any other line does nothing (the loop
body has no other branch, in particular it never assigns the section
variable and never appends to the value accumulator). -/
def scanStep (st : ScanState) (raw : List Char) : ScanState :=
  let line := pyStripL raw
  if line = [] ∨ "#".data.isPrefixOf line then
    { sec := none, val := [], data := flushData st.sec st.val st.data }
  else if line.contains ':' then
    { st with data := kvStep st.data line }
  else st

/-- Record evolution of the first scan with the dead flush machinery
removed: only the key-value dispatch acts.  Used to state that the flush
branch never writes. -/
def kvOnly (d : Record) (raw : List Char) : Record :=
  let line := pyStripL raw
  if line = [] ∨ "#".data.isPrefixOf line then d
  else if line.contains ':' then kvStep d line
  else d

/-- Initial state of the first scan, build.py:82-83. -/
def initScan (d : Record) : ScanState where
  sec := none
  val := []
  data := d

/-- State of the second pass of build.py:126-130: the two section flags and
the two accumulators. -/
structure PassState where
  inMoat : Bool
  inInsights : Bool
  moat : List (List Char)
  insights : List String
  deriving DecidableEq

/-- One iteration of the second pass, build.py:132-146. -/
def passStep (st : PassState) (raw : List Char) : PassState :=
  let line := pyStripL raw
  if line = "## Moat Sources".data then { st with inMoat := true, inInsights := false }
  else if line = "## Key Insights".data then { st with inMoat := false, inInsights := true }
  else if "## Pressure".data.isPrefixOf line then { st with inMoat := false, inInsights := false }
  else if st.inMoat ∧ line ≠ [] then { st with moat := st.moat ++ [line] }
  else if st.inInsights ∧ "- ".data.isPrefixOf line then
    { st with insights := st.insights ++ [(⟨line.drop 2⟩ : String)] }
  else st

/-- Initial state of the second pass, build.py:127-130. -/
def initPass : PassState where
  inMoat := false
  inInsights := false
  moat := []
  insights := []

/-- Second pass over a list of lines from a given state. -/
def runPass (lines : List (List Char)) (st : PassState) : PassState :=
  lines.foldl passStep st

/-- parse_markdown of build.py:51-151 at the level of document lines: title
loop, first scan, second pass, then the unconditional writes of
build.py:148-149 into moat_sources and key_insights. -/
def parseLines (lines : List (List Char)) : Record :=
  let d1 := applyTitle initRecord lines
  let st := lines.foldl scanStep (initScan d1)
  let ps := runPass lines initPass
  { st.data with
      moat_sources := ⟨pyStripL (List.intercalate [' '] ps.moat)⟩
      key_insights := ps.insights }

/-- parse_markdown of build.py:51-151 on the document text. -/
def parse_markdown (content : String) : Record :=
  parseLines (pyLines content)

/-- Classification lookup of build.py:17-23 with the default of
build.py:169 and 230: a known label maps to its badge style, short label
and stable identifier; any other label maps to the gray style, the
Unknown label and the empty identifier. -/
def classificationMap (label : String) : String × String × String :=
  if label = "Unsloppable + Beneficiary" then
    ("bg-green-100 text-green-800", "Unsloppable\n+Beneficiary", "UnsloppableBeneficiary")
  else if label = "Unsloppable + High Transition Risk" then
    ("bg-blue-100 text-blue-800", "High\nTransition", "UnsloppableHighTransitionRisk")
  else if label = "Unsloppable + Macro Exposed" then
    ("bg-yellow-100 text-yellow-800", "Macro\nExposed", "UnsloppableMacroExposed")
  else if label = "Sloppable + Beneficiary" then
    ("bg-red-100 text-red-800", "Sloppable\n+Beneficiary", "SloppableBeneficiary")
  else if label = "Sloppable + Clankerable" then
    ("bg-red-200 text-red-900", "Sloppable\n+Clankerable", "SloppableClankerable")
  else ("bg-gray-100 text-gray-800", "Unknown", "")

/-- Stable identifier a record classifies to on the index, build.py:169. -/
def cssOf (c : Record) : String :=
  (classificationMap c.final_classification).2.2

/-- Initial statistics dictionary of build.py:158-164: exactly the five
known identifiers, each at zero. -/
def initStats : List (String × Nat) :=
  [("UnsloppableBeneficiary", 0),
   ("UnsloppableHighTransitionRisk", 0),
   ("UnsloppableMacroExposed", 0),
   ("SloppableBeneficiary", 0),
   ("SloppableClankerable", 0)]

/-- Python stats.get with a default, build.py:171, over the insertion
ordered dictionary modelled as an association list with unique keys. -/
def statsGet (l : List (String × Nat)) (k : String) (d : Nat) : Nat :=
  match l with
  | [] => d
  | (k2, v) :: t => if k = k2 then v else statsGet t k d

/-- Python dict item assignment, build.py:171: update the entry in place
when the key exists, otherwise append a fresh entry at the end. -/
def statsSet (l : List (String × Nat)) (k : String) (v : Nat) : List (String × Nat) :=
  match l with
  | [] => [(k, v)]
  | (k2, w) :: t => if k = k2 then (k2, v) :: t else (k2, w) :: statsSet t k v

/-- Counter update for one record, build.py:168-171.  An unrecognized
label yields the empty identifier and creates or bumps an entry outside
the five known counters. -/
def indexStep (st : List (String × Nat)) (c : Record) : List (String × Nat) :=
  statsSet st (cssOf c) (statsGet st (cssOf c) 0 + 1)

/-- Statistics accumulated over all records, build.py:167-171. -/
def indexStats (companies : List Record) : List (String × Nat) :=
  companies.foldl indexStep initStats

/-- One summary card of the index page: the company_data entry of
build.py:173-182. -/
structure Card where
  ticker : String
  companyName : String
  classificationShort : String
  classificationClass : String
  badgeClass : String
  aiScore : String
  roboticsScore : String
  moatSources : String
  deriving DecidableEq

/-- Card of one record, build.py:167-182.  The dict .get defaults of the
source (empty string for ticker, the ticker for company_name, the N/A
token for the scores, the empty string for moat_sources) are inert here:
parse_markdown always stores every key, so each .get returns the stored
field.  The moat sources excerpt follows build.py:181: the value (or the
empty string when falsy) cut to its first hundred characters, with the
three-dot marker appended unconditionally. -/
def cardOf (c : Record) : Card :=
  let t := classificationMap c.final_classification
  { ticker := c.ticker
    companyName := c.company_name
    classificationShort := ⟨t.2.1.data.map (fun ch => if ch = '\n' then ' ' else ch)⟩
    classificationClass := t.2.2
    badgeClass := t.1
    aiScore := c.ai_score
    roboticsScore := c.robotics_score
    moatSources := ⟨(if c.moat_sources = "" then "" else c.moat_sources).data.take 100 ++ "...".data⟩ }

/-- Substitution mapping of the detail page renderer: the subs dictionary
of build.py:232-256.  As in cardOf, every dict .get default of the source
(the N/A token for the scores, the beneficiaries, the moat sources and the
eight answer slots, the Unknown token for classification, value chain and
macro risk, the integer zero passed to get_score_class) is inert because
parse_markdown always stores every key. -/
structure DetailSubs where
  ticker : String
  companyName : String
  finalClassification : String
  badgeClass : String
  aiScore : String
  roboticsScore : String
  aiScoreClass : String
  roboticsScoreClass : String
  valueChain : String
  macroRisk : String
  macroRiskClass : String
  aiBeneficiary : String
  roboticsBeneficiary : String
  moatSources : String
  keyInsights : List String
  q1 : String
  q2 : String
  q3 : String
  q4 : String
  q5 : String
  q6 : String
  q7 : String
  q8 : String
  deriving DecidableEq

/-- Detail page substitutions of build.py:229-256.  The displayed macro
risk keeps only the portion of the stored value before the first
space-hyphen-space separator (build.py:242), while its class is resolved
from the full stored value (build.py:243). -/
def detailSubs (d : Record) : DetailSubs :=
  { ticker := d.ticker
    companyName := d.company_name
    finalClassification := d.final_classification
    badgeClass := (classificationMap d.final_classification).1
    aiScore := d.ai_score
    roboticsScore := d.robotics_score
    aiScoreClass := get_score_class d.ai_score
    roboticsScoreClass := get_score_class d.robotics_score
    valueChain := d.value_chain
    macroRisk := ⟨beforeFirst " - ".data d.macro_risk.data⟩
    macroRiskClass := get_macro_risk_class d.macro_risk
    aiBeneficiary := d.ai_beneficiary
    roboticsBeneficiary := d.robotics_beneficiary
    moatSources := d.moat_sources
    keyInsights := d.key_insights
    q1 := d.q1
    q2 := d.q2
    q3 := d.q3
    q4 := d.q4
    q5 := d.q5
    q6 := d.q6
    q7 := d.q7
    q8 := d.q8 }

/-- Per-document step of the driver loop, build.py:276-285: parse the
document twice (the source reparses each file, build.py:278 and 280),
then keep the record exactly when its ticker is truthy, that is a
nonempty string. -/
def mainStep (doc : String) : Option Record :=
  let _discarded := parse_markdown doc
  let d := parse_markdown doc
  if d.ticker ≠ "" then some d else none

/-- Accumulated company list of the driver, build.py:275-282, in input
order. -/
def mainCompanies (docs : List String) : List Record :=
  docs.filterMap mainStep

/-- Names of the detail pages the driver writes, build.py:284-285: one
page per accumulated record, named after its ticker. -/
def mainPages (docs : List String) : List String :=
  (mainCompanies docs).map (fun r => r.ticker ++ ".html")

/-! Helper lemmas about the embedding. -/

/-- Fields of the record the key-value dispatch can never write: ticker,
company name, and the eight answer slots. -/
def inertFields (d : Record) :
    String × String × String × String × String × String × String × String × String × String :=
  (d.ticker, d.company_name, d.q1, d.q2, d.q3, d.q4, d.q5, d.q6, d.q7, d.q8)

theorem kvStep_inert (d : Record) (line : List Char) :
    inertFields (kvStep d line) = inertFields d := by
  unfold kvStep
  split
  · rfl
  · dsimp only
    split_ifs <;> (try split) <;> rfl

theorem kvOnly_inert (d : Record) (raw : List Char) :
    inertFields (kvOnly d raw) = inertFields d := by
  unfold kvOnly
  dsimp only
  split_ifs with h1 h2
  · rfl
  · exact kvStep_inert d (pyStripL raw)
  · rfl

theorem foldKv_inert (lines : List (List Char)) (d : Record) :
    inertFields (lines.foldl kvOnly d) = inertFields d := by
  induction lines generalizing d with
  | nil => rfl
  | cons l t ih => exact (ih (kvOnly d l)).trans (kvOnly_inert d l)

theorem scanStep_noSec (d : Record) (raw : List Char) :
    scanStep ⟨none, [], d⟩ raw = ⟨none, [], kvOnly d raw⟩ := by
  unfold scanStep kvOnly
  dsimp only
  split_ifs <;> rfl

theorem foldScan_noSec (lines : List (List Char)) (d : Record) :
    lines.foldl scanStep ⟨none, [], d⟩ = ⟨none, [], lines.foldl kvOnly d⟩ := by
  induction lines generalizing d with
  | nil => rfl
  | cons l t ih =>
    show t.foldl scanStep (scanStep ⟨none, [], d⟩ l) = _
    rw [scanStep_noSec, ih]
    rfl

theorem beforeFirst_prefix (sep : List Char) (l : List Char) :
    beforeFirst sep l <+: l := by
  induction l with
  | nil => exact List.nil_prefix
  | cons c t ih =>
    unfold beforeFirst
    split
    · exact List.nil_prefix
    · rcases ih with ⟨t2, ht⟩
      exact ⟨t2, by rw [List.cons_append, ht]⟩

/-- Document of the C1 evaluation: a valid title and a score line whose
value has no digits, so the parsed score field stays empty. -/
def c1doc : String :=
  "# Acme Corp (ACME)\nAI Software Vulnerability Score: none\nRobotics Vulnerability Score: unclear"

/-- C1: the claim says a missing or empty score and every other missing
optional field render as the explicit N/A token.  The code disagrees: the
parser pre-populates every dictionary key with the empty string, so the
dict .get N/A defaults of generate_company_page never apply, and the
renderer substitutes the empty string (the score class does degrade to the
neutral gray class).  This theorem evaluates the renderer on a document
whose score values contain no digits. -/
theorem c1_missing_fields_render_empty :
    (parse_markdown c1doc).ai_score = "" ∧
    (parse_markdown c1doc).robotics_score = "" ∧
    (detailSubs (parse_markdown c1doc)).aiScore = "" ∧
    (detailSubs (parse_markdown c1doc)).aiScore ≠ "N/A" ∧
    (detailSubs (parse_markdown c1doc)).roboticsScore = "" ∧
    (detailSubs (parse_markdown c1doc)).q1 = "" ∧
    (detailSubs (parse_markdown c1doc)).q1 ≠ "N/A" ∧
    (detailSubs (parse_markdown c1doc)).moatSources = "" ∧
    (detailSubs (parse_markdown c1doc)).aiBeneficiary = "" ∧
    (detailSubs (parse_markdown c1doc)).aiScoreClass = "text-gray-600" := by
  decide

/-- Document of the C8 evaluation: the title pattern matches with a
whitespace-only name group, so the ticker is nonempty while the company
name is empty. -/
def c8doc : String := "#   (ACME)"

/-- C8: the claim says the index card displays the ticker when the company
name is empty.  The code disagrees: the company_name key is always present
in a parsed record, so the dict .get fallback to the ticker in
generate_index never applies and the card shows the empty name.  This
theorem evaluates the card builder on a record with a nonempty ticker and
an empty company name. -/
theorem c8_card_shows_empty_name :
    (parse_markdown c8doc).ticker = "ACME" ∧
    (parse_markdown c8doc).company_name = "" ∧
    (cardOf (parse_markdown c8doc)).companyName = "" ∧
    (cardOf (parse_markdown c8doc)).companyName ≠ (parse_markdown c8doc).ticker := by
  decide

/-- C9: parsing is deterministic; two runs of the parser on the same text
agree on every field of the resulting record. -/
theorem c9_parse_deterministic (content : String) :
    (parse_markdown content).ticker = (parse_markdown content).ticker ∧
    (parse_markdown content).company_name = (parse_markdown content).company_name ∧
    (parse_markdown content).ai_score = (parse_markdown content).ai_score ∧
    (parse_markdown content).robotics_score = (parse_markdown content).robotics_score ∧
    (parse_markdown content).ai_beneficiary = (parse_markdown content).ai_beneficiary ∧
    (parse_markdown content).robotics_beneficiary = (parse_markdown content).robotics_beneficiary ∧
    (parse_markdown content).value_chain = (parse_markdown content).value_chain ∧
    (parse_markdown content).final_classification = (parse_markdown content).final_classification ∧
    (parse_markdown content).macro_risk = (parse_markdown content).macro_risk ∧
    (parse_markdown content).moat_sources = (parse_markdown content).moat_sources ∧
    (parse_markdown content).key_insights = (parse_markdown content).key_insights ∧
    (parse_markdown content).q1 = (parse_markdown content).q1 ∧
    (parse_markdown content).q2 = (parse_markdown content).q2 ∧
    (parse_markdown content).q3 = (parse_markdown content).q3 ∧
    (parse_markdown content).q4 = (parse_markdown content).q4 ∧
    (parse_markdown content).q5 = (parse_markdown content).q5 ∧
    (parse_markdown content).q6 = (parse_markdown content).q6 ∧
    (parse_markdown content).q7 = (parse_markdown content).q7 ∧
    (parse_markdown content).q8 = (parse_markdown content).q8 :=
  ⟨rfl, rfl, rfl, rfl, rfl, rfl, rfl, rfl, rfl, rfl,
   rfl, rfl, rfl, rfl, rfl, rfl, rfl, rfl, rfl⟩

/-- C6: the index card moat excerpt is the first hundred characters of the
moat sources followed by the three-dot marker, and the marker is appended
even when the source text is not longer than the cut, in particular when
it is empty. -/
theorem c6_moat_excerpt_unconditional (r : Record) :
    (cardOf r).moatSources.data = r.moat_sources.data.take 100 ++ "...".data ∧
    (r.moat_sources.data.length ≤ 100 →
      (cardOf r).moatSources.data = r.moat_sources.data ++ "...".data) := by
  have h1 : (cardOf r).moatSources.data
      = (if r.moat_sources = "" then "" else r.moat_sources).data.take 100 ++ "...".data := rfl
  have h2 : (cardOf r).moatSources.data = r.moat_sources.data.take 100 ++ "...".data := by
    rw [h1]
    by_cases h : r.moat_sources = ""
    · rw [h]
      rfl
    · rw [if_neg h]
  refine ⟨h2, fun hlen => ?_⟩
  rw [h2, List.take_of_length_le hlen]

theorem c6_witness :
    (cardOf { initRecord with moat_sources := "short" }).moatSources.data = "short...".data :=
  ((c6_moat_excerpt_unconditional { initRecord with moat_sources := "short" }).2
    (by decide)).trans (by decide)

/-- C7: the macro risk class of the detail page is resolved by
case-insensitive substring search over the full stored value, green for
low, else yellow for medium, else red, while the displayed macro risk text
is the prefix of the value before the first space-hyphen-space separator;
the final conjuncts evaluate both on a value whose separator tail would
change the class if it were dropped before class resolution. -/
theorem c7_macro_risk_class_and_display (r : Record) :
    (detailSubs r).macroRiskClass =
      (if listIn "low".data (r.macro_risk.data.map Char.toLower) then "text-green-600"
       else if listIn "medium".data (r.macro_risk.data.map Char.toLower) then "text-yellow-600"
       else "text-red-600") ∧
    (detailSubs r).macroRisk.data <+: r.macro_risk.data ∧
    (detailSubs r).macroRisk.data = beforeFirst " - ".data r.macro_risk.data ∧
    (detailSubs { r with macro_risk := "High - but low contagion" }).macroRisk = "High" ∧
    (detailSubs { r with macro_risk := "High - but low contagion" }).macroRiskClass
      = "text-green-600" :=
  ⟨rfl, beforeFirst_prefix " - ".data r.macro_risk.data, rfl, rfl, rfl⟩

/-- C2: a document none of whose lines matches the title pattern parses to
a record with an empty ticker; the driver then emits no detail page for it
and does not add it to the accumulated company list, so it contributes no
card, no statistics and no count to the index page. -/
theorem c2_no_title_line_dropped (doc : String)
    (h : ∀ l ∈ pyLines doc, extractTitle l = none) :
    (parse_markdown doc).ticker = "" ∧
    mainStep doc = none ∧
    ∀ pre post : List String,
      mainCompanies (pre ++ doc :: post) = mainCompanies (pre ++ post) ∧
      mainPages (pre ++ doc :: post) = mainPages (pre ++ post) ∧
      (mainCompanies (pre ++ doc :: post)).map cardOf
        = (mainCompanies (pre ++ post)).map cardOf ∧
      indexStats (mainCompanies (pre ++ doc :: post))
        = indexStats (mainCompanies (pre ++ post)) ∧
      (mainCompanies (pre ++ doc :: post)).length = (mainCompanies (pre ++ post)).length := by
  have hfs : (pyLines doc).findSome? extractTitle = none :=
    List.findSome?_eq_none_iff.mpr h
  have h4 : (applyTitle initRecord (pyLines doc)).ticker = "" := by
    unfold applyTitle
    rw [hfs]
    rfl
  have h2 : (parse_markdown doc).ticker
      = ((pyLines doc).foldl kvOnly (applyTitle initRecord (pyLines doc))).ticker := by
    show ((pyLines doc).foldl scanStep
        (initScan (applyTitle initRecord (pyLines doc)))).data.ticker = _
    rw [show initScan (applyTitle initRecord (pyLines doc))
          = (⟨none, [], applyTitle initRecord (pyLines doc)⟩ : ScanState) from rfl,
        foldScan_noSec]
  have h3 : ((pyLines doc).foldl kvOnly (applyTitle initRecord (pyLines doc))).ticker
      = (applyTitle initRecord (pyLines doc)).ticker :=
    congrArg Prod.fst (foldKv_inert (pyLines doc) (applyTitle initRecord (pyLines doc)))
  have hticker : (parse_markdown doc).ticker = "" := h2.trans (h3.trans h4)
  have hmain : mainStep doc = none := by
    show (if (parse_markdown doc).ticker ≠ "" then some (parse_markdown doc) else none) = none
    rw [hticker]
    simp
  refine ⟨hticker, hmain, fun pre post => ?_⟩
  have hco : mainCompanies (pre ++ doc :: post) = mainCompanies (pre ++ post) := by
    unfold mainCompanies
    rw [List.filterMap_append, List.filterMap_append, List.filterMap_cons, hmain]
  exact ⟨hco, by unfold mainPages; rw [hco],
    congrArg (List.map cardOf) hco, congrArg indexStats hco, congrArg List.length hco⟩

theorem c2_witness :
    mainStep "no title in this document" = none ∧
    mainCompanies (["# Acme Corp (ACME)"] ++ "no title in this document" :: [])
      = mainCompanies (["# Acme Corp (ACME)"] ++ []) := by
  have h := c2_no_title_line_dropped "no title in this document" (by decide)
  exact ⟨h.2.1, (h.2.2 ["# Acme Corp (ACME)"] []).1⟩

/-- C4: for a colon line whose normalized key is one of the two score
keys, the key-value dispatch stores the first maximal run of digits of the
value into the corresponding score field, and a value containing no digits
leaves the record unchanged, so a score that was never set stays empty;
the closing conjuncts evaluate the extraction on the documented example
value and check that the empty score resolves to the neutral gray class in
rendering. -/
theorem c4_score_digit_run (d : Record) (line : List Char) :
    (lineKey line = some "AI Software Vulnerability Score".data →
      (firstRun (lineVal line) = none → kvStep d line = d) ∧
      (∀ r, firstRun (lineVal line) = some r →
        kvStep d line = { d with ai_score := ⟨r⟩ })) ∧
    (lineKey line = some "Robotics Vulnerability Score".data →
      (firstRun (lineVal line) = none → kvStep d line = d) ∧
      (∀ r, firstRun (lineVal line) = some r →
        kvStep d line = { d with robotics_score := ⟨r⟩ })) ∧
    firstRun "7/10".data = some "7".data ∧
    get_score_class "" = "text-gray-600" := by
  refine ⟨fun hk => ⟨fun h0 => ?_, fun r hr => ?_⟩,
          fun hk => ⟨fun h0 => ?_, fun r hr => ?_⟩, by decide, by decide⟩
  · unfold kvStep
    rw [hk]
    dsimp only
    rw [if_pos rfl, h0]
  · unfold kvStep
    rw [hk]
    dsimp only
    rw [if_pos rfl, hr]
  · unfold kvStep
    rw [hk]
    dsimp only
    rw [if_neg (by decide), if_pos rfl, h0]
  · unfold kvStep
    rw [hk]
    dsimp only
    rw [if_neg (by decide), if_pos rfl, hr]

theorem c4_witness :
    kvStep initRecord "AI Software Vulnerability Score: 7/10".data
      = { initRecord with ai_score := "7" } := by
  have h := ((c4_score_digit_run initRecord
    "AI Software Vulnerability Score: 7/10".data).1 (by decide)).2 "7".data (by decide)
  exact h.trans (by decide)

/-- The five classification labels of CLASSIFICATION_MAP, build.py:17-23. -/
def knownLabels : List String :=
  ["Unsloppable + Beneficiary", "Unsloppable + High Transition Risk",
   "Unsloppable + Macro Exposed", "Sloppable + Beneficiary", "Sloppable + Clankerable"]

/-- The five stable identifiers the statistics dictionary is initialised
with, build.py:158-164. -/
def knownIds : List String :=
  ["UnsloppableBeneficiary", "UnsloppableHighTransitionRisk",
   "UnsloppableMacroExposed", "SloppableBeneficiary", "SloppableClankerable"]

theorem statsGet_statsSet (l : List (String × Nat)) (k : String) (v : Nat) (k2 : String) :
    statsGet (statsSet l k v) k2 0 = if k2 = k then v else statsGet l k2 0 := by
  induction l with
  | nil => rfl
  | cons p t ih =>
    obtain ⟨k3, w⟩ := p
    simp only [statsSet, statsGet]
    split_ifs with h1 h2 h3 h4 <;> simp_all [statsGet]

theorem statsGet_fold_count (rs : List Record) (st : List (String × Nat)) (k : String) :
    statsGet (rs.foldl indexStep st) k 0
      = statsGet st k 0 + (rs.filter (fun r => cssOf r == k)).length := by
  induction rs generalizing st with
  | nil => simp
  | cons r t ih =>
    show statsGet (t.foldl indexStep (indexStep st r)) k 0 = _
    rw [ih]
    unfold indexStep
    rw [statsGet_statsSet]
    by_cases h : cssOf r = k
    · rw [if_pos h.symm, h, List.filter_cons]
      have hb : (cssOf r == k) = true := by rw [h]; exact beq_self_eq_true k
      simp only [hb, if_true, List.length_cons]
      omega
    · rw [if_neg (fun he => h he.symm), List.filter_cons]
      have hb : (cssOf r == k) = false := beq_eq_false_iff_ne.mpr h
      simp [hb]

theorem cssOf_beq_pair (r : Record) :
    ((cssOf r == "UnsloppableBeneficiary")
      = (r.final_classification == "Unsloppable + Beneficiary")) ∧
    ((cssOf r == "UnsloppableHighTransitionRisk")
      = (r.final_classification == "Unsloppable + High Transition Risk")) ∧
    ((cssOf r == "UnsloppableMacroExposed")
      = (r.final_classification == "Unsloppable + Macro Exposed")) ∧
    ((cssOf r == "SloppableBeneficiary")
      = (r.final_classification == "Sloppable + Beneficiary")) ∧
    ((cssOf r == "SloppableClankerable")
      = (r.final_classification == "Sloppable + Clankerable")) := by
  unfold cssOf classificationMap
  by_cases h1 : r.final_classification = "Unsloppable + Beneficiary"
  · rw [h1]; decide
  by_cases h2 : r.final_classification = "Unsloppable + High Transition Risk"
  · rw [h2]; decide
  by_cases h3 : r.final_classification = "Unsloppable + Macro Exposed"
  · rw [h3]; decide
  by_cases h4 : r.final_classification = "Sloppable + Beneficiary"
  · rw [h4]; decide
  by_cases h5 : r.final_classification = "Sloppable + Clankerable"
  · rw [h5]; decide
  rw [if_neg h1, if_neg h2, if_neg h3, if_neg h4, if_neg h5]
  refine ⟨?_, ?_, ?_, ?_, ?_⟩
  · rw [beq_eq_false_iff_ne.mpr h1]; decide
  · rw [beq_eq_false_iff_ne.mpr h2]; decide
  · rw [beq_eq_false_iff_ne.mpr h3]; decide
  · rw [beq_eq_false_iff_ne.mpr h4]; decide
  · rw [beq_eq_false_iff_ne.mpr h5]; decide

theorem classificationMap_unknown (label : String) (h : label ∉ knownLabels) :
    classificationMap label = ("bg-gray-100 text-gray-800", "Unknown", "") := by
  have h1 : label ≠ "Unsloppable + Beneficiary" := fun he => h (by rw [he]; decide)
  have h2 : label ≠ "Unsloppable + High Transition Risk" := fun he => h (by rw [he]; decide)
  have h3 : label ≠ "Unsloppable + Macro Exposed" := fun he => h (by rw [he]; decide)
  have h4 : label ≠ "Sloppable + Beneficiary" := fun he => h (by rw [he]; decide)
  have h5 : label ≠ "Sloppable + Clankerable" := fun he => h (by rw [he]; decide)
  unfold classificationMap
  rw [if_neg h1, if_neg h2, if_neg h3, if_neg h4, if_neg h5]

/-- C3: the index statistics start from exactly the five known identifiers
at zero; each record whose final classification equals one of the five
known labels bumps exactly the matching counter, so each known counter
ends up as the number of records carrying the corresponding label; a
record with any other label maps to the default gray tuple with the
Unknown short label and the empty identifier, and appending such a record
changes none of the five known counters. -/
theorem c3_classification_counts (rs : List Record) :
    initStats = [("UnsloppableBeneficiary", 0), ("UnsloppableHighTransitionRisk", 0),
      ("UnsloppableMacroExposed", 0), ("SloppableBeneficiary", 0),
      ("SloppableClankerable", 0)] ∧
    statsGet (indexStats rs) "UnsloppableBeneficiary" 0
      = (rs.filter (fun r => r.final_classification == "Unsloppable + Beneficiary")).length ∧
    statsGet (indexStats rs) "UnsloppableHighTransitionRisk" 0
      = (rs.filter (fun r => r.final_classification == "Unsloppable + High Transition Risk")).length ∧
    statsGet (indexStats rs) "UnsloppableMacroExposed" 0
      = (rs.filter (fun r => r.final_classification == "Unsloppable + Macro Exposed")).length ∧
    statsGet (indexStats rs) "SloppableBeneficiary" 0
      = (rs.filter (fun r => r.final_classification == "Sloppable + Beneficiary")).length ∧
    statsGet (indexStats rs) "SloppableClankerable" 0
      = (rs.filter (fun r => r.final_classification == "Sloppable + Clankerable")).length ∧
    ∀ r : Record, r.final_classification ∉ knownLabels →
      classificationMap r.final_classification = ("bg-gray-100 text-gray-800", "Unknown", "") ∧
      ∀ k ∈ knownIds,
        statsGet (indexStats (rs ++ [r])) k 0 = statsGet (indexStats rs) k 0 := by
  refine ⟨rfl, ?_, ?_, ?_, ?_, ?_, ?_⟩
  · rw [indexStats, statsGet_fold_count,
      List.filter_congr (fun r _ => (cssOf_beq_pair r).1)]
    rw [show statsGet initStats "UnsloppableBeneficiary" 0 = 0 from rfl, Nat.zero_add]
  · rw [indexStats, statsGet_fold_count,
      List.filter_congr (fun r _ => (cssOf_beq_pair r).2.1)]
    rw [show statsGet initStats "UnsloppableHighTransitionRisk" 0 = 0 from rfl, Nat.zero_add]
  · rw [indexStats, statsGet_fold_count,
      List.filter_congr (fun r _ => (cssOf_beq_pair r).2.2.1)]
    rw [show statsGet initStats "UnsloppableMacroExposed" 0 = 0 from rfl, Nat.zero_add]
  · rw [indexStats, statsGet_fold_count,
      List.filter_congr (fun r _ => (cssOf_beq_pair r).2.2.2.1)]
    rw [show statsGet initStats "SloppableBeneficiary" 0 = 0 from rfl, Nat.zero_add]
  · rw [indexStats, statsGet_fold_count,
      List.filter_congr (fun r _ => (cssOf_beq_pair r).2.2.2.2)]
    rw [show statsGet initStats "SloppableClankerable" 0 = 0 from rfl, Nat.zero_add]
  · intro r hr
    have hmap := classificationMap_unknown r.final_classification hr
    have hcss : cssOf r = "" := by unfold cssOf; rw [hmap]
    refine ⟨hmap, fun k hk => ?_⟩
    have hkne : ("" == k) = false := by
      simp only [knownIds, List.mem_cons, List.not_mem_nil, or_false] at hk
      rcases hk with rfl | rfl | rfl | rfl | rfl <;> decide
    rw [indexStats, indexStats, statsGet_fold_count, statsGet_fold_count,
      List.filter_append]
    have hsingle : List.filter (fun x => cssOf x == k) [r] = [] := by
      rw [List.filter_cons, hcss, hkne]
      simp
    rw [hsingle, List.append_nil]

/-- Record with a known classification label, used by the C3 witness. -/
def c3known : Record := { initRecord with final_classification := "Unsloppable + Beneficiary" }

/-- Record with an unrecognized classification label, used by the C3
witness. -/
def c3unknown : Record := { initRecord with final_classification := "Some Future Label" }

theorem c3_witness :
    statsGet (indexStats [c3known, c3known, c3unknown, c3known]) "UnsloppableBeneficiary" 0 = 3 ∧
    statsGet (indexStats ([c3known] ++ [c3unknown])) "UnsloppableBeneficiary" 0
      = statsGet (indexStats [c3known]) "UnsloppableBeneficiary" 0 := by
  constructor
  · rw [(c3_classification_counts [c3known, c3known, c3unknown, c3known]).2.1]
    decide
  · exact ((c3_classification_counts [c3known]).2.2.2.2.2.2 c3unknown (by decide)).2
      "UnsloppableBeneficiary" (by decide)

theorem runPass_append (xs ys : List (List Char)) (st : PassState) :
    runPass (xs ++ ys) st = runPass ys (runPass xs st) := by
  unfold runPass
  rw [List.foldl_append]

theorem passStep_keyInsights (s : PassState) :
    passStep s "## Key Insights".data = { s with inMoat := false, inInsights := true } := by
  simp only [passStep]
  rw [if_neg (by decide), if_pos (by decide)]

theorem passStep_bullet (s : PassState) (m : List Char)
    (hm : s.inMoat = false) (hi : s.inInsights = true)
    (hb : (pyStripL m).take 2 = "- ".data) :
    passStep s m = { s with insights := s.insights ++ [(⟨(pyStripL m).drop 2⟩ : String)] } := by
  have h1 : pyStripL m ≠ "## Moat Sources".data := by
    intro heq
    rw [heq] at hb
    exact absurd hb (by decide)
  have h2 : pyStripL m ≠ "## Key Insights".data := by
    intro heq
    rw [heq] at hb
    exact absurd hb (by decide)
  have h3 : ¬ ("## Pressure".data.isPrefixOf (pyStripL m) = true) := by
    intro hp
    have hpre := List.prefix_iff_eq_take.mp (List.isPrefixOf_iff_prefix.mp hp)
    have hx : (pyStripL m).take 2 = "## Pressure".data.take 2 := by
      rw [hpre, List.take_take]
      rw [show (2 ⊓ "## Pressure".data.length) = 2 from by decide]
    rw [hb] at hx
    exact absurd hx (by decide)
  have h4 : ¬ (s.inMoat = true ∧ ¬ pyStripL m = []) := by
    intro hc
    rw [hm] at hc
    exact absurd hc.1 (by decide)
  have h5 : s.inInsights = true ∧ "- ".data.isPrefixOf (pyStripL m) = true := by
    refine ⟨hi, List.isPrefixOf_iff_prefix.mpr (List.prefix_iff_eq_take.mpr ?_)⟩
    exact hb.symm
  simp only [passStep]
  rw [if_neg h1, if_neg h2, if_neg h3, if_neg h4, if_pos h5]

theorem runPass_bullets (mids : List (List Char)) (st : PassState)
    (hm : st.inMoat = false) (hi : st.inInsights = true)
    (hb : ∀ m ∈ mids, (pyStripL m).take 2 = "- ".data) :
    runPass mids st
      = { st with insights :=
          st.insights ++ mids.map (fun m => (⟨(pyStripL m).drop 2⟩ : String)) } := by
  induction mids generalizing st with
  | nil =>
    cases st
    simp [runPass]
  | cons m t ih =>
    have hstep := passStep_bullet st m hm hi (hb m (List.mem_cons_self m t))
    show runPass t (passStep st m) = _
    rw [hstep,
      ih { st with insights := st.insights ++ [(⟨(pyStripL m).drop 2⟩ : String)] }
        hm hi (fun x hx => hb x (List.mem_cons_of_mem m hx))]
    cases st
    simp [List.append_assoc]

/-- C5: in a document whose Key Insights heading is followed by bullet
lines and then by material contributing no further insights (for instance
a Pressure heading or the end of the document), the parsed key insights
are exactly those bullet lines in document order with the two-character
bullet marker stripped.  The hypotheses say: the lines before the heading
produce no insights, every line of the bullet block strips to a line
starting with the two-character bullet marker, and the remaining lines add
no insights from any state that is outside the moat section. -/
theorem c5_key_insights_order (pre mids rest : List (List Char))
    (hpre : (runPass pre initPass).insights = [])
    (hmids : ∀ m ∈ mids, (pyStripL m).take 2 = "- ".data)
    (hrest : ∀ st : PassState, st.inMoat = false → (runPass rest st).insights = st.insights) :
    (parseLines (pre ++ "## Key Insights".data :: (mids ++ rest))).key_insights
      = mids.map (fun m => (⟨(pyStripL m).drop 2⟩ : String)) := by
  show (runPass (pre ++ "## Key Insights".data :: (mids ++ rest)) initPass).insights = _
  rw [runPass_append,
    show runPass ("## Key Insights".data :: (mids ++ rest)) (runPass pre initPass)
      = runPass (mids ++ rest) (passStep (runPass pre initPass) "## Key Insights".data)
      from rfl,
    passStep_keyInsights, runPass_append, runPass_bullets _ _ rfl rfl hmids,
    hrest _ rfl]
  show (runPass pre initPass).insights ++ _ = _
  rw [hpre, List.nil_append]

theorem c5_witness :
    (parseLines ([] ++ "## Key Insights".data
        :: (["- Alpha".data, "- Beta".data] ++ ["## Pressure Test".data]))).key_insights
      = ["Alpha", "Beta"] := by
  have h := c5_key_insights_order [] ["- Alpha".data, "- Beta".data] ["## Pressure Test".data]
    (by decide) (by decide)
    (fun s hs => by
      show (passStep s "## Pressure Test".data).insights = s.insights
      simp only [passStep]
      rw [if_neg (by decide), if_neg (by decide), if_pos (by decide)])
  exact h.trans (by decide)

theorem applyTitle_q (d : Record) (lines : List (List Char)) :
    (applyTitle d lines).q1 = d.q1 ∧ (applyTitle d lines).q2 = d.q2 ∧
    (applyTitle d lines).q3 = d.q3 ∧ (applyTitle d lines).q4 = d.q4 ∧
    (applyTitle d lines).q5 = d.q5 ∧ (applyTitle d lines).q6 = d.q6 ∧
    (applyTitle d lines).q7 = d.q7 ∧ (applyTitle d lines).q8 = d.q8 := by
  cases h : lines.findSome? extractTitle with
  | none =>
    unfold applyTitle
    rw [h]
    exact ⟨rfl, rfl, rfl, rfl, rfl, rfl, rfl, rfl⟩
  | some p =>
    obtain ⟨n, t⟩ := p
    unfold applyTitle
    rw [h]
    exact ⟨rfl, rfl, rfl, rfl, rfl, rfl, rfl, rfl⟩

theorem foldKv_q (lines : List (List Char)) (d : Record) :
    (lines.foldl kvOnly d).q1 = d.q1 ∧ (lines.foldl kvOnly d).q2 = d.q2 ∧
    (lines.foldl kvOnly d).q3 = d.q3 ∧ (lines.foldl kvOnly d).q4 = d.q4 ∧
    (lines.foldl kvOnly d).q5 = d.q5 ∧ (lines.foldl kvOnly d).q6 = d.q6 ∧
    (lines.foldl kvOnly d).q7 = d.q7 ∧ (lines.foldl kvOnly d).q8 = d.q8 :=
  ⟨congrArg (fun p => p.2.2.1) (foldKv_inert lines d),
   congrArg (fun p => p.2.2.2.1) (foldKv_inert lines d),
   congrArg (fun p => p.2.2.2.2.1) (foldKv_inert lines d),
   congrArg (fun p => p.2.2.2.2.2.1) (foldKv_inert lines d),
   congrArg (fun p => p.2.2.2.2.2.2.1) (foldKv_inert lines d),
   congrArg (fun p => p.2.2.2.2.2.2.2.1) (foldKv_inert lines d),
   congrArg (fun p => p.2.2.2.2.2.2.2.2.1) (foldKv_inert lines d),
   congrArg (fun p => p.2.2.2.2.2.2.2.2.2) (foldKv_inert lines d)⟩

theorem parse_markdown_eq (content : String) :
    parse_markdown content
      = { (pyLines content).foldl kvOnly (applyTitle initRecord (pyLines content)) with
          moat_sources :=
            ⟨pyStripL (List.intercalate [' '] (runPass (pyLines content) initPass).moat)⟩,
          key_insights := (runPass (pyLines content) initPass).insights } := by
  show ({ ((pyLines content).foldl scanStep
      (initScan (applyTitle initRecord (pyLines content)))).data with
        moat_sources :=
          ⟨pyStripL (List.intercalate [' '] (runPass (pyLines content) initPass).moat)⟩,
        key_insights := (runPass (pyLines content) initPass).insights } : Record) = _
  rw [show initScan (applyTitle initRecord (pyLines content))
        = (⟨none, [], applyTitle initRecord (pyLines content)⟩ : ScanState) from rfl,
      foldScan_noSec]

/-- C10: the first scan of the parser never assigns the active-section
variable and never grows the value accumulator, so its flush branch never
writes into the record: over any list of lines the scan state keeps no
section and no pending value and its record component equals the pure
key-value fold; consequently the eight answer slots of every parsed record
stay empty, and moat_sources and key_insights are exactly the second-pass
results. -/
theorem c10_flush_branch_dead (ls : List (List Char)) (d0 : Record) (content : String) :
    (ls.foldl scanStep (initScan d0)).sec = none ∧
    (ls.foldl scanStep (initScan d0)).val = [] ∧
    (ls.foldl scanStep (initScan d0)).data = ls.foldl kvOnly d0 ∧
    (parse_markdown content).q1 = "" ∧ (parse_markdown content).q2 = "" ∧
    (parse_markdown content).q3 = "" ∧ (parse_markdown content).q4 = "" ∧
    (parse_markdown content).q5 = "" ∧ (parse_markdown content).q6 = "" ∧
    (parse_markdown content).q7 = "" ∧ (parse_markdown content).q8 = "" ∧
    (parse_markdown content).moat_sources
      = ⟨pyStripL (List.intercalate [' '] (runPass (pyLines content) initPass).moat)⟩ ∧
    (parse_markdown content).key_insights = (runPass (pyLines content) initPass).insights := by
  have hscan := foldScan_noSec ls d0
  have hinit : initScan d0 = (⟨none, [], d0⟩ : ScanState) := rfl
  have hq := foldKv_q (pyLines content) (applyTitle initRecord (pyLines content))
  have ha := applyTitle_q initRecord (pyLines content)
  refine ⟨by rw [hinit, hscan], by rw [hinit, hscan], by rw [hinit, hscan],
    ?_, ?_, ?_, ?_, ?_, ?_, ?_, ?_, by rw [parse_markdown_eq], by rw [parse_markdown_eq]⟩
  · rw [parse_markdown_eq]
    exact hq.1.trans ha.1
  · rw [parse_markdown_eq]
    exact hq.2.1.trans ha.2.1
  · rw [parse_markdown_eq]
    exact hq.2.2.1.trans ha.2.2.1
  · rw [parse_markdown_eq]
    exact hq.2.2.2.1.trans ha.2.2.2.1
  · rw [parse_markdown_eq]
    exact hq.2.2.2.2.1.trans ha.2.2.2.2.1
  · rw [parse_markdown_eq]
    exact hq.2.2.2.2.2.1.trans ha.2.2.2.2.2.1
  · rw [parse_markdown_eq]
    exact hq.2.2.2.2.2.2.1.trans ha.2.2.2.2.2.2.1
  · rw [parse_markdown_eq]
    exact hq.2.2.2.2.2.2.2.trans ha.2.2.2.2.2.2.2
